import Mathlib

/-!
Shallow embedding of the payment subsystem of wallet-ms-backend:
the payment entity and service (`internal/application/payment`), and the
payment lifecycle worker (`internal/application/payment/worker/handler.go`).

Conventions of the embedding:
- Go `string` is `String`, `uint` is `Nat`, `time.Time` / `time.Duration`
  are `Int` nanoseconds (as in Go's `UnixNano`).  `float64` amounts are
  modelled as `Int`; no verified operation computes with an amount, it is
  only carried through records.
- Go errors are `String`s holding the error message; fallible calls return
  `Except String α`.  `fmt.Errorf("...: %w", err)` becomes string
  concatenation, which preserves the wrapped message verbatim.
- The collaborators the worker and service talk to (GORM repository, asynq
  client, payment service) are modelled as explicit function-valued
  parameters, and each handler returns, besides its error result, the list
  of calls it made to each collaborator, in order.
- Wall-clock reads (`time.Now()`) are parameters: `now` for the elapsed-time
  comparison, `nano` for the `UnixNano` pseudo-random draw, `nowRFC` for the
  RFC3339-formatted timestamp interpolated into audit descriptions.
-/

namespace WalletMS

/-! ## Payment entity (`entity/payment.go`) -/

/-- The four enumerated payment status values (`entity.PaymentStatus` constants). -/
def PaymentStatusPending : String := "pending"

/-- `entity.PaymentStatusCompleted`. -/
def PaymentStatusCompleted : String := "completed"

/-- `entity.PaymentStatusFailed`. -/
def PaymentStatusFailed : String := "failed"

/-- `entity.PaymentStatusCanceled`. -/
def PaymentStatusCanceled : String := "canceled"

/-- `entity.PaymentStatus.IsValid`: membership in the closed four-value enumeration. -/
def PaymentStatus.IsValid (ps : String) : Bool :=
  ps == PaymentStatusPending || ps == PaymentStatusCompleted ||
  ps == PaymentStatusFailed || ps == PaymentStatusCanceled

/-- `entity.Payment`: the stored payment row (GORM soft-delete column elided;
no verified operation reads it). -/
structure Payment where
  ID : Nat
  Amount : Int
  Currency : String
  Status : String
  Description : String
  UserID : Nat
  CreatedAt : Int
  UpdatedAt : Int
deriving Repr, DecidableEq

/-! ## Payment DTOs (`dto/payment.dto.go`) -/

/-- `dto.UpdatePaymentRequest`. -/
structure UpdatePaymentRequest where
  Status : String
  Description : String
deriving Repr, DecidableEq

/-- `dto.PaymentResponse`. -/
structure PaymentResponse where
  ID : Nat
  Amount : Int
  Currency : String
  Status : String
  Description : String
  UserID : Nat
  CreatedAt : Int
  UpdatedAt : Int
deriving Repr, DecidableEq

/-- `paymentService.entityToResponse`. -/
def entityToResponse (payment : Payment) : PaymentResponse :=
  { ID := payment.ID
    Amount := payment.Amount
    Currency := payment.Currency
    Status := payment.Status
    Description := payment.Description
    UserID := payment.UserID
    CreatedAt := payment.CreatedAt
    UpdatedAt := payment.UpdatedAt }

/-! ## Payment service (`service/payment.service.go`) -/

/-- Result of a repository fetch: `gorm.ErrRecordNotFound` is distinguished
because `UpdatePayment` maps it to the message "payment not found". -/
inductive RepoErr where
  | recordNotFound
  | other (msg : String)
deriving Repr, DecidableEq

/-- Observable outcome of one `paymentService.UpdatePayment` call: the returned
value or error, and the list of entities passed to `repo.Update` (the writes
attempted against the store). -/
structure ServiceUpdateResult where
  result : Except String PaymentResponse
  writes : List Payment

/-- `paymentService.UpdatePayment id req`:
fetch the entity, validate the requested status against the closed
enumeration, mutate status, description (only when the request's description
is non-empty) and the updated timestamp, then write through `repo.Update`.
`repoGetByID` and `repoUpdate` are the injected repository collaborator;
`repoUpdate` returns `some msg` when the write fails with that error. -/
def paymentService.UpdatePayment
    (repoGetByID : Nat → Except RepoErr Payment)
    (repoUpdate : Payment → Option String)
    (now : Int) (id : Nat) (req : UpdatePaymentRequest) : ServiceUpdateResult :=
  match repoGetByID id with
  | .error .recordNotFound => { result := .error "payment not found", writes := [] }
  | .error (.other msg) => { result := .error msg, writes := [] }
  | .ok payment =>
    if PaymentStatus.IsValid req.Status then
      let payment' : Payment :=
        { payment with
          Status := req.Status
          Description := if req.Description ≠ "" then req.Description else payment.Description
          UpdatedAt := now }
      match repoUpdate payment' with
      | some msg => { result := .error msg, writes := [payment'] }
      | none => { result := .ok (entityToResponse payment'), writes := [payment'] }
    else
      { result := .error "invalid payment status", writes := [] }

/-! ## Task payload decoding (`json.Unmarshal` into the worker's payload structs) -/

/-- A JSON value, the wire form of a task payload.  Numbers are integral:
the payloads under verification only ever carry a `uint` field, and a
fractional or non-numeric value is a decode error either way. -/
inductive Json where
  | null
  | bool (b : Bool)
  | num (n : Int)
  | str (s : String)
  | arr (elems : List Json)
  | obj (fields : List (String × Json))
deriving Repr

/-- Field lookup in a JSON object.  Go's decoder processes members in order
and later duplicates overwrite earlier ones, so the last occurrence wins. -/
def Json.lookupField : List (String × Json) → String → Option Json
  | [], _ => none
  | (k, v) :: rest, key =>
    match Json.lookupField rest key with
    | some v' => some v'
    | none => if k == key then some v else none

/-- `json.Unmarshal` of a task payload into `CheckPaymentStatusPayload` /
`ProcessPaymentPayload` (both are a single struct field
`PaymentID uint` tagged `payment_id`), following Go's semantics:
a JSON `null` (top level or at the field) leaves the zero value without
error, a missing field keeps the zero value, a negative number cannot be
stored in a `uint`, and any non-numeric field value or non-object top level
is a decode error. -/
def decodePaymentIDPayload : Json → Except String Nat
  | .null => .ok 0
  | .obj fields =>
    match Json.lookupField fields "payment_id" with
    | none => .ok 0
    | some .null => .ok 0
    | some (.num n) =>
      if 0 ≤ n then .ok n.toNat
      else .error "json: cannot unmarshal number into Go struct field .payment_id of type uint"
    | some _ => .error "json: cannot unmarshal value into Go struct field .payment_id of type uint"
  | _ => .error "json: cannot unmarshal value into Go value of type worker payload"

/-! ## Payment lifecycle worker (`worker/handler.go`) -/

/-- The collaborators and clock reads one handler invocation consumes.
`getPaymentByID` and `updatePayment` are the injected `PaymentService`
boundary; `enqueue` is the outcome of the single `asynq` client submission a
status-check handler can make (ok carries the created task id). -/
structure WorkerEnv where
  getPaymentByID : Nat → Except String PaymentResponse
  updatePayment : Nat → UpdatePaymentRequest → Except String PaymentResponse
  enqueue : Except String String
  now : Int
  nano : Nat
  nowRFC : String

/-- `config.WorkerConfig`, the fields the handlers consume. -/
structure Config where
  PaymentCheckInterval : Int
  RetryMaxAttempts : Nat
deriving Repr, DecidableEq

/-- `time.Minute` in nanoseconds. -/
def timeMinute : Int := 60000000000

/-- One call to `SchedulePaymentStatusCheck`: its arguments and the result the
caller observed (and, in `HandleCheckPaymentStatus`, discarded). -/
structure SchedCall where
  paymentID : Nat
  delay : Int
  result : Except String String

/-- Observable outcome of one handler invocation: the returned error (or
`none` for a nil return), and the calls made to each collaborator, in order. -/
structure HandlerOutput where
  result : Option String
  getCalls : List Nat
  updateCalls : List (Nat × UpdatePaymentRequest)
  enqueueCalls : List SchedCall

/-- `PaymentWorker.SchedulePaymentStatusCheck paymentID delay`:
marshal the payload (which cannot fail for this struct), build a
`payment:check_status` task for the "default" queue with the configured retry
bound, and submit it, wrapping a submission failure. -/
def SchedulePaymentStatusCheck (env : WorkerEnv) (_paymentID : Nat) (_delay : Int) :
    Except String String :=
  match env.enqueue with
  | .error e => .error ("failed to enqueue task: " ++ e)
  | .ok info => .ok info

/-- `PaymentWorker.simulatePaymentGatewayCheck`: after two minutes since
creation, a `UnixNano mod 10` draw resolves to completed on 0–7, failed
on 8, and pending on 9; within the first two minutes the status stays
pending. -/
def simulatePaymentGatewayCheck (env : WorkerEnv) (payment : PaymentResponse) : String :=
  let elapsed := env.now - payment.CreatedAt
  if elapsed > 2 * timeMinute then
    let rand := env.nano % 10
    if rand < 8 then PaymentStatusCompleted
    else if rand < 9 then PaymentStatusFailed
    else PaymentStatusPending
  else PaymentStatusPending

/-- `PaymentWorker.HandleCheckPaymentStatus`:
decode the payload; fetch the payment; short-circuit with success when the
stored status is already completed, failed or canceled; otherwise resolve a
new status via the simulated gateway check, persist it when it differs from
the current one (propagating a persistence failure), and, when the resolved
status is still pending, schedule the next check after the configured
interval, logging but not returning a scheduling failure. -/
def HandleCheckPaymentStatus (env : WorkerEnv) (cfg : Config) (payload : Json) :
    HandlerOutput :=
  match decodePaymentIDPayload payload with
  | .error e =>
    { result := some ("json.Unmarshal failed: " ++ e)
      getCalls := [], updateCalls := [], enqueueCalls := [] }
  | .ok paymentID =>
    match env.getPaymentByID paymentID with
    | .error e =>
      { result := some ("failed to get payment: " ++ e)
        getCalls := [paymentID], updateCalls := [], enqueueCalls := [] }
    | .ok payment =>
      if payment.Status == PaymentStatusCompleted ||
         payment.Status == PaymentStatusFailed ||
         payment.Status == PaymentStatusCanceled then
        { result := none, getCalls := [paymentID], updateCalls := [], enqueueCalls := [] }
      else
        let newStatus := simulatePaymentGatewayCheck env payment
        let sched : List SchedCall :=
          if newStatus == PaymentStatusPending then
            [{ paymentID := paymentID
               delay := cfg.PaymentCheckInterval
               result := SchedulePaymentStatusCheck env paymentID cfg.PaymentCheckInterval }]
          else []
        if newStatus ≠ payment.Status then
          let updateReq : UpdatePaymentRequest :=
            { Status := newStatus
              Description := "Status updated by worker at " ++ env.nowRFC }
          match env.updatePayment paymentID updateReq with
          | .error e =>
            { result := some ("failed to update payment status: " ++ e)
              getCalls := [paymentID], updateCalls := [(paymentID, updateReq)]
              enqueueCalls := [] }
          | .ok _ =>
            { result := none, getCalls := [paymentID]
              updateCalls := [(paymentID, updateReq)], enqueueCalls := sched }
        else
          { result := none, getCalls := [paymentID], updateCalls := []
            enqueueCalls := sched }

/-- `PaymentWorker.simulatePaymentProcessing`: a `UnixNano mod 10` draw
succeeds on 0–8 (90 percent) and fails on 9. -/
def simulatePaymentProcessing (env : WorkerEnv) (_payment : PaymentResponse) : Bool :=
  env.nano % 10 < 9

/-- `PaymentWorker.HandleProcessPayment`:
decode the payload; fetch the payment; resolve success or failure via the
simulated processing draw; persist the resulting terminal status (completed
on success, failed otherwise) unconditionally, propagating a persistence
failure.  There is no terminal-status short-circuit in this handler. -/
def HandleProcessPayment (env : WorkerEnv) (payload : Json) : HandlerOutput :=
  match decodePaymentIDPayload payload with
  | .error e =>
    { result := some ("json.Unmarshal failed: " ++ e)
      getCalls := [], updateCalls := [], enqueueCalls := [] }
  | .ok paymentID =>
    match env.getPaymentByID paymentID with
    | .error e =>
      { result := some ("failed to get payment: " ++ e)
        getCalls := [paymentID], updateCalls := [], enqueueCalls := [] }
    | .ok payment =>
      let success := simulatePaymentProcessing env payment
      let newStatus := if success then PaymentStatusCompleted else PaymentStatusFailed
      let updateReq : UpdatePaymentRequest :=
        { Status := newStatus
          Description := "Payment processed by worker at " ++ env.nowRFC }
      match env.updatePayment paymentID updateReq with
      | .error e =>
        { result := some ("failed to update payment: " ++ e)
          getCalls := [paymentID], updateCalls := [(paymentID, updateReq)]
          enqueueCalls := [] }
      | .ok _ =>
        { result := none, getCalls := [paymentID]
          updateCalls := [(paymentID, updateReq)], enqueueCalls := [] }

/-! ## Concrete fixtures used by witnesses and counterexamples -/

/-- A stored payment entity used as a repository fixture. -/
def examplePayment : Payment :=
  { ID := 8, Amount := 100, Currency := "USD", Status := PaymentStatusPending
    Description := "order 8", UserID := 1, CreatedAt := 0, UpdatedAt := 0 }

/-- A payment view with the given id, status and creation instant. -/
def mkView (id : Nat) (status : String) (createdAt : Int) : PaymentResponse :=
  { ID := id, Amount := 100, Currency := "USD", Status := status
    Description := "order", UserID := 1, CreatedAt := createdAt, UpdatedAt := createdAt }

/-- A worker environment whose store always serves `p`, whose update returns
`upd`, whose queue submission returns `enq`, at clock reads `now` and `nano`. -/
def mkEnv (p : PaymentResponse) (upd : Except String PaymentResponse)
    (enq : Except String String) (now : Int) (nano : Nat) : WorkerEnv :=
  { getPaymentByID := fun _ => .ok p
    updatePayment := fun _ _ => upd
    enqueue := enq
    now := now, nano := nano, nowRFC := "2026-01-01T00:00:00Z" }

/-- A task payload carrying the given payment id. -/
def payloadFor (id : Nat) : Json := .obj [("payment_id", .num (Int.ofNat id))]

/-- A malformed task payload: the payment id field holds a string. -/
def badPayload : Json := .obj [("payment_id", .str "abc")]

/-- A worker configuration fixture (five-minute re-poll, three retries). -/
def exampleCfg : Config := { PaymentCheckInterval := 5 * timeMinute, RetryMaxAttempts := 3 }

end WalletMS

namespace WalletMS

/-! ## Theorems -/

/-- C9: for every existing payment id and every status string outside the
closed enumeration, `paymentService.UpdatePayment` returns the validation
error "invalid payment status" and performs no repository write; every status
inside the enumeration passes the `IsValid` check. -/
theorem C9_update_rejects_invalid_status
    (repoGetByID : Nat → Except RepoErr Payment) (repoUpdate : Payment → Option String)
    (now : Int) (id : Nat) (req : UpdatePaymentRequest) (p : Payment)
    (hget : repoGetByID id = .ok p) :
    (PaymentStatus.IsValid req.Status = false →
      (paymentService.UpdatePayment repoGetByID repoUpdate now id req).result =
        .error "invalid payment status" ∧
      (paymentService.UpdatePayment repoGetByID repoUpdate now id req).writes = []) ∧
    (req.Status = PaymentStatusPending ∨ req.Status = PaymentStatusCompleted ∨
     req.Status = PaymentStatusFailed ∨ req.Status = PaymentStatusCanceled →
      PaymentStatus.IsValid req.Status = true) := by
  constructor
  · intro hval
    unfold paymentService.UpdatePayment
    rw [hget]
    simp [hval]
  · intro hmem
    rcases hmem with h | h | h | h <;> rw [h] <;> decide

/-- Witness for C9 at a concrete repository and requests: the status
"refunded" is rejected without a write, and "completed" passes validation. -/
theorem C9_update_rejects_invalid_status_witness :
    ((paymentService.UpdatePayment (fun _ => .ok examplePayment) (fun _ => none) 7 8
        { Status := "refunded", Description := "" }).result =
      .error "invalid payment status" ∧
     (paymentService.UpdatePayment (fun _ => .ok examplePayment) (fun _ => none) 7 8
        { Status := "refunded", Description := "" }).writes = []) ∧
    PaymentStatus.IsValid "completed" = true := by
  refine ⟨?_, ?_⟩
  · exact (C9_update_rejects_invalid_status (fun _ => .ok examplePayment) (fun _ => none) 7 8
      { Status := "refunded", Description := "" } examplePayment rfl).1 (by decide)
  · exact (C9_update_rejects_invalid_status (fun _ => .ok examplePayment) (fun _ => none) 7 8
      { Status := "completed", Description := "" } examplePayment rfl).2 (Or.inr (Or.inl rfl))

/-- C10: a successful `paymentService.UpdatePayment` whose request carries an
empty description writes exactly one entity, and that entity keeps the stored
description while the status and the updated timestamp are overwritten. -/
theorem C10_empty_description_preserved
    (repoGetByID : Nat → Except RepoErr Payment) (repoUpdate : Payment → Option String)
    (now : Int) (id : Nat) (req : UpdatePaymentRequest) (p : Payment) (r : PaymentResponse)
    (hget : repoGetByID id = .ok p)
    (hdesc : req.Description = "")
    (hok : (paymentService.UpdatePayment repoGetByID repoUpdate now id req).result = .ok r) :
    (paymentService.UpdatePayment repoGetByID repoUpdate now id req).writes =
      [{ p with Status := req.Status, UpdatedAt := now }] := by
  unfold paymentService.UpdatePayment at hok ⊢
  rw [hget] at hok ⊢
  by_cases hval : PaymentStatus.IsValid req.Status = true
  · simp only [hval, if_true] at hok ⊢
    cases hupd : repoUpdate { p with
        Status := req.Status
        Description := if req.Description ≠ "" then req.Description else p.Description
        UpdatedAt := now } <;> simp [hupd, hdesc]
  · simp only [Bool.not_eq_true] at hval
    simp [hval] at hok

/-- Witness for C10: updating payment 8 to completed with an empty
description writes the entity with the old description "order 8". -/
theorem C10_empty_description_preserved_witness :
    (paymentService.UpdatePayment (fun _ => .ok examplePayment) (fun _ => none) 7 8
        { Status := "completed", Description := "" }).writes =
      [{ examplePayment with Status := "completed", UpdatedAt := 7 }] :=
  C10_empty_description_preserved (fun _ => .ok examplePayment) (fun _ => none) 7 8
    { Status := "completed", Description := "" } examplePayment
    (entityToResponse { examplePayment with Status := "completed", UpdatedAt := 7 })
    rfl rfl rfl

/-- C7: a task payload that does not decode into the one-field
payment-id object makes both handlers return the wrapped decode error with
no store fetch, no store update and no queue submission. -/
theorem C7_decode_error_no_calls
    (env : WorkerEnv) (cfg : Config) (payload : Json) (e : String)
    (hdec : decodePaymentIDPayload payload = .error e) :
    HandleCheckPaymentStatus env cfg payload =
      { result := some ("json.Unmarshal failed: " ++ e)
        getCalls := [], updateCalls := [], enqueueCalls := [] } ∧
    HandleProcessPayment env payload =
      { result := some ("json.Unmarshal failed: " ++ e)
        getCalls := [], updateCalls := [], enqueueCalls := [] } := by
  unfold HandleCheckPaymentStatus HandleProcessPayment
  rw [hdec]
  exact ⟨rfl, rfl⟩

/-- Witness for C7: a payload whose payment id field holds the string "abc"
is rejected by both handlers without any collaborator call. -/
theorem C7_decode_error_no_calls_witness :
    HandleCheckPaymentStatus (mkEnv (mkView 8 PaymentStatusPending 0) (.ok (mkView 8 PaymentStatusPending 0)) (.ok "t") 0 0) exampleCfg badPayload =
      { result := some ("json.Unmarshal failed: " ++
          "json: cannot unmarshal value into Go struct field .payment_id of type uint")
        getCalls := [], updateCalls := [], enqueueCalls := [] } ∧
    HandleProcessPayment (mkEnv (mkView 8 PaymentStatusPending 0) (.ok (mkView 8 PaymentStatusPending 0)) (.ok "t") 0 0) badPayload =
      { result := some ("json.Unmarshal failed: " ++
          "json: cannot unmarshal value into Go struct field .payment_id of type uint")
        getCalls := [], updateCalls := [], enqueueCalls := [] } :=
  C7_decode_error_no_calls
    (mkEnv (mkView 8 PaymentStatusPending 0) (.ok (mkView 8 PaymentStatusPending 0)) (.ok "t") 0 0)
    exampleCfg badPayload
    "json: cannot unmarshal value into Go struct field .payment_id of type uint" rfl

/-- C4: on a payment whose stored status is terminal, the status-check
handler returns nil after the fetch alone: no update and no enqueue. -/
theorem C4_terminal_short_circuit
    (env : WorkerEnv) (cfg : Config) (payload : Json) (pid : Nat) (p : PaymentResponse)
    (hdec : decodePaymentIDPayload payload = .ok pid)
    (hget : env.getPaymentByID pid = .ok p)
    (hterm : p.Status = PaymentStatusCompleted ∨ p.Status = PaymentStatusFailed ∨
             p.Status = PaymentStatusCanceled) :
    HandleCheckPaymentStatus env cfg payload =
      { result := none, getCalls := [pid], updateCalls := [], enqueueCalls := [] } := by
  have hcond : (p.Status == PaymentStatusCompleted || p.Status == PaymentStatusFailed ||
      p.Status == PaymentStatusCanceled) = true := by
    rcases hterm with h | h | h <;> rw [h] <;> decide
  unfold HandleCheckPaymentStatus
  simp only [hdec]
  simp only [hget]
  simp [hcond]

/-- Witness for C4 at the spec's scenario: payment id 8 with status
completed; the handler returns nil having only fetched. -/
theorem C4_terminal_short_circuit_witness :
    HandleCheckPaymentStatus
        (mkEnv (mkView 8 PaymentStatusCompleted 0) (.error "unexpected") (.error "down") 0 0)
        exampleCfg (payloadFor 8) =
      { result := none, getCalls := [8], updateCalls := [], enqueueCalls := [] } :=
  C4_terminal_short_circuit
    (mkEnv (mkView 8 PaymentStatusCompleted 0) (.error "unexpected") (.error "down") 0 0)
    exampleCfg (payloadFor 8) 8 (mkView 8 PaymentStatusCompleted 0)
    rfl rfl (Or.inl rfl)

/-- C1 counterexample: terminal states are not absorbing under every worker
operation.  Payment 8 is stored with the terminal status "completed", yet a
`HandleProcessPayment` invocation (with the draw landing on 9) succeeds after
persisting an update that flips the status to "failed" and overwrites the
description. -/
theorem C1_counterexample :
    (mkView 8 PaymentStatusCompleted 0).Status = PaymentStatusCompleted ∧
    (HandleProcessPayment
        (mkEnv (mkView 8 PaymentStatusCompleted 0) (.ok (mkView 8 PaymentStatusFailed 0)) (.ok "t") 0 9)
        (payloadFor 8)).updateCalls =
      [(8, { Status := PaymentStatusFailed
             Description := "Payment processed by worker at 2026-01-01T00:00:00Z" })] ∧
    (HandleProcessPayment
        (mkEnv (mkView 8 PaymentStatusCompleted 0) (.ok (mkView 8 PaymentStatusFailed 0)) (.ok "t") 0 9)
        (payloadFor 8)).result = none ∧
    PaymentStatusFailed ≠ PaymentStatusCompleted :=
  ⟨rfl, rfl, rfl, by decide⟩

/-- C1 amended: terminal statuses are absorbing under `HandleCheckPaymentStatus`
only — the status-check handler never updates and never enqueues on a
terminal payment — while `HandleProcessPayment` has no terminal-status guard
and issues an update on every successfully fetched payment, whatever its
stored status. -/
theorem C1_terminal_absorbing_only_under_status_check
    (env : WorkerEnv) (cfg : Config) (payload : Json) (pid : Nat) (p : PaymentResponse)
    (hdec : decodePaymentIDPayload payload = .ok pid)
    (hget : env.getPaymentByID pid = .ok p)
    (hterm : p.Status = PaymentStatusCompleted ∨ p.Status = PaymentStatusFailed ∨
             p.Status = PaymentStatusCanceled) :
    (HandleCheckPaymentStatus env cfg payload).updateCalls = [] ∧
    (HandleCheckPaymentStatus env cfg payload).enqueueCalls = [] ∧
    (HandleProcessPayment env payload).updateCalls =
      [(pid, { Status := if env.nano % 10 < 9 then PaymentStatusCompleted else PaymentStatusFailed
               Description := "Payment processed by worker at " ++ env.nowRFC })] := by
  have hcond : (p.Status == PaymentStatusCompleted || p.Status == PaymentStatusFailed ||
      p.Status == PaymentStatusCanceled) = true := by
    rcases hterm with h | h | h <;> rw [h] <;> decide
  refine ⟨?_, ?_, ?_⟩
  · unfold HandleCheckPaymentStatus
    simp only [hdec]
    simp only [hget]
    simp [hcond]
  · unfold HandleCheckPaymentStatus
    simp only [hdec]
    simp only [hget]
    simp [hcond]
  · unfold HandleProcessPayment
    simp only [hdec]
    simp only [hget]
    unfold simulatePaymentProcessing
    by_cases hdraw : env.nano % 10 < 9 <;> simp [hdraw] <;> split <;> rfl

/-- Witness for the amended C1: on completed payment 8, the status-check
handler makes no update and no enqueue, while the process handler (draw 9)
updates it to failed. -/
theorem C1_terminal_absorbing_only_under_status_check_witness :
    (HandleCheckPaymentStatus
        (mkEnv (mkView 8 PaymentStatusCompleted 0) (.ok (mkView 8 PaymentStatusFailed 0)) (.ok "t") 0 9)
        exampleCfg (payloadFor 8)).updateCalls = [] ∧
    (HandleCheckPaymentStatus
        (mkEnv (mkView 8 PaymentStatusCompleted 0) (.ok (mkView 8 PaymentStatusFailed 0)) (.ok "t") 0 9)
        exampleCfg (payloadFor 8)).enqueueCalls = [] ∧
    (HandleProcessPayment
        (mkEnv (mkView 8 PaymentStatusCompleted 0) (.ok (mkView 8 PaymentStatusFailed 0)) (.ok "t") 0 9)
        (payloadFor 8)).updateCalls =
      [(8, { Status := if 9 % 10 < 9 then PaymentStatusCompleted else PaymentStatusFailed
             Description := "Payment processed by worker at 2026-01-01T00:00:00Z" })] :=
  C1_terminal_absorbing_only_under_status_check
    (mkEnv (mkView 8 PaymentStatusCompleted 0) (.ok (mkView 8 PaymentStatusFailed 0)) (.ok "t") 0 9)
    exampleCfg (payloadFor 8) 8 (mkView 8 PaymentStatusCompleted 0)
    rfl rfl (Or.inl rfl)

/-- C2: a `HandleProcessPayment` invocation whose fetch succeeds and which
returns nil has called the store update exactly once, with status completed
when the processing draw succeeds (`nano mod 10 < 9`) and failed otherwise —
and that status is never pending. -/
theorem C2_process_persists_terminal_exactly_once
    (env : WorkerEnv) (payload : Json) (pid : Nat) (p : PaymentResponse)
    (hdec : decodePaymentIDPayload payload = .ok pid)
    (hget : env.getPaymentByID pid = .ok p)
    (_hok : (HandleProcessPayment env payload).result = none) :
    (HandleProcessPayment env payload).updateCalls =
      [(pid, { Status := if env.nano % 10 < 9 then PaymentStatusCompleted else PaymentStatusFailed
               Description := "Payment processed by worker at " ++ env.nowRFC })] ∧
    (if env.nano % 10 < 9 then PaymentStatusCompleted else PaymentStatusFailed) ≠
      PaymentStatusPending := by
  constructor
  · unfold HandleProcessPayment
    simp only [hdec]
    simp only [hget]
    unfold simulatePaymentProcessing
    by_cases hdraw : env.nano % 10 < 9 <;> simp [hdraw] <;> split <;> rfl
  · by_cases hdraw : env.nano % 10 < 9 <;> simp only [hdraw, if_pos, if_neg] <;> decide

/-- Witness for C2: processing pending payment 8 with draw 3 persists
"completed" exactly once. -/
theorem C2_process_persists_terminal_exactly_once_witness :
    (HandleProcessPayment
        (mkEnv (mkView 8 PaymentStatusPending 0) (.ok (mkView 8 PaymentStatusCompleted 0)) (.ok "t") 0 3)
        (payloadFor 8)).updateCalls =
      [(8, { Status := if 3 % 10 < 9 then PaymentStatusCompleted else PaymentStatusFailed
             Description := "Payment processed by worker at 2026-01-01T00:00:00Z" })] ∧
    (if 3 % 10 < 9 then PaymentStatusCompleted else PaymentStatusFailed) ≠ PaymentStatusPending :=
  C2_process_persists_terminal_exactly_once
    (mkEnv (mkView 8 PaymentStatusPending 0) (.ok (mkView 8 PaymentStatusCompleted 0)) (.ok "t") 0 3)
    (payloadFor 8) 8 (mkView 8 PaymentStatusPending 0) rfl rfl rfl

/-- C5: on a pending payment whose age is at most the two-minute threshold,
the status check resolves to the unchanged "pending", the handler returns
nil with no update call, and exactly one follow-up enqueue is attempted via
`SchedulePaymentStatusCheck` with the configured check interval. -/
theorem C5_young_pending_reschedules_once
    (env : WorkerEnv) (cfg : Config) (payload : Json) (pid : Nat) (p : PaymentResponse)
    (hdec : decodePaymentIDPayload payload = .ok pid)
    (hget : env.getPaymentByID pid = .ok p)
    (hpend : p.Status = PaymentStatusPending)
    (hyoung : env.now - p.CreatedAt ≤ 2 * timeMinute) :
    simulatePaymentGatewayCheck env p = PaymentStatusPending ∧
    HandleCheckPaymentStatus env cfg payload =
      { result := none, getCalls := [pid], updateCalls := []
        enqueueCalls := [{ paymentID := pid, delay := cfg.PaymentCheckInterval
                           result := SchedulePaymentStatusCheck env pid cfg.PaymentCheckInterval }] } := by
  have hsim : simulatePaymentGatewayCheck env p = PaymentStatusPending := by
    unfold simulatePaymentGatewayCheck
    simp [not_lt.mpr hyoung]
  refine ⟨hsim, ?_⟩
  unfold HandleCheckPaymentStatus
  simp only [hdec]
  simp only [hget]
  simp [hsim, hpend, PaymentStatusPending, PaymentStatusCompleted, PaymentStatusFailed,
    PaymentStatusCanceled]

/-- Witness for C5: pending payment 7 created one minute before the check is
left pending and one follow-up check is enqueued after the configured
interval. -/
theorem C5_young_pending_reschedules_once_witness :
    simulatePaymentGatewayCheck
        (mkEnv (mkView 7 PaymentStatusPending 0) (.error "unexpected") (.ok "t") timeMinute 0)
        (mkView 7 PaymentStatusPending 0) = PaymentStatusPending ∧
    HandleCheckPaymentStatus
        (mkEnv (mkView 7 PaymentStatusPending 0) (.error "unexpected") (.ok "t") timeMinute 0)
        exampleCfg (payloadFor 7) =
      { result := none, getCalls := [7], updateCalls := []
        enqueueCalls := [{ paymentID := 7, delay := exampleCfg.PaymentCheckInterval
                           result := SchedulePaymentStatusCheck
                             (mkEnv (mkView 7 PaymentStatusPending 0) (.error "unexpected") (.ok "t") timeMinute 0)
                             7 exampleCfg.PaymentCheckInterval }] } :=
  C5_young_pending_reschedules_once
    (mkEnv (mkView 7 PaymentStatusPending 0) (.error "unexpected") (.ok "t") timeMinute 0)
    exampleCfg (payloadFor 7) 7 (mkView 7 PaymentStatusPending 0)
    rfl rfl rfl (by decide)

/-- C3: the status-check handler returns nil exactly when the fetch
succeeded and the stored status was terminal, or the resolved status equals
the current one, or the required update succeeded.  The queue-submission
outcome (`env.enqueue`) does not occur in this characterization at all: a
failed follow-up enqueue is absorbed, and it is the only collaborator
failure the handler absorbs — a fetch failure or a needed-update failure
each falsify the right-hand side and so force an error return. -/
theorem C3_reschedule_failure_absorbed
    (env : WorkerEnv) (cfg : Config) (payload : Json) (pid : Nat)
    (hdec : decodePaymentIDPayload payload = .ok pid) :
    (HandleCheckPaymentStatus env cfg payload).result = none ↔
    ∃ p, env.getPaymentByID pid = .ok p ∧
      (p.Status = PaymentStatusCompleted ∨ p.Status = PaymentStatusFailed ∨
       p.Status = PaymentStatusCanceled ∨
       simulatePaymentGatewayCheck env p = p.Status ∨
       ∃ r, env.updatePayment pid
          { Status := simulatePaymentGatewayCheck env p
            Description := "Status updated by worker at " ++ env.nowRFC } = .ok r) := by
  unfold HandleCheckPaymentStatus
  simp only [hdec]
  cases hget : env.getPaymentByID pid with
  | error e => simp
  | ok p =>
    by_cases hterm : (p.Status == PaymentStatusCompleted || p.Status == PaymentStatusFailed ||
        p.Status == PaymentStatusCanceled) = true
    · have hterm' : p.Status = PaymentStatusCompleted ∨ p.Status = PaymentStatusFailed ∨
          p.Status = PaymentStatusCanceled := by
        simp only [Bool.or_eq_true, beq_iff_eq] at hterm
        tauto
      simp [hterm]
      tauto
    · have hterm' : ¬(p.Status = PaymentStatusCompleted ∨ p.Status = PaymentStatusFailed ∨
          p.Status = PaymentStatusCanceled) := by
        simp only [Bool.or_eq_true, beq_iff_eq] at hterm
        tauto
      by_cases hchg : simulatePaymentGatewayCheck env p = p.Status
      · simp [hterm, hchg]
      · cases hupd : env.updatePayment pid
            { Status := simulatePaymentGatewayCheck env p
              Description := "Status updated by worker at " ++ env.nowRFC } with
        | error e =>
          simp [hterm, hchg, hupd]
          tauto
        | ok r => simp [hterm, hchg, hupd]

/-- Witness for C3: a young pending payment whose follow-up enqueue fails
with "queue down" still yields a nil handler return. -/
theorem C3_reschedule_failure_absorbed_witness :
    ((HandleCheckPaymentStatus
        (mkEnv (mkView 7 PaymentStatusPending 0) (.error "unexpected") (.error "queue down") timeMinute 0)
        exampleCfg (payloadFor 7)).result = none ↔
      ∃ p, (mkEnv (mkView 7 PaymentStatusPending 0) (.error "unexpected") (.error "queue down") timeMinute 0).getPaymentByID 7 = .ok p ∧
        (p.Status = PaymentStatusCompleted ∨ p.Status = PaymentStatusFailed ∨
         p.Status = PaymentStatusCanceled ∨
         simulatePaymentGatewayCheck
           (mkEnv (mkView 7 PaymentStatusPending 0) (.error "unexpected") (.error "queue down") timeMinute 0) p = p.Status ∨
         ∃ r, (mkEnv (mkView 7 PaymentStatusPending 0) (.error "unexpected") (.error "queue down") timeMinute 0).updatePayment 7
            { Status := simulatePaymentGatewayCheck
                (mkEnv (mkView 7 PaymentStatusPending 0) (.error "unexpected") (.error "queue down") timeMinute 0) p
              Description := "Status updated by worker at 2026-01-01T00:00:00Z" } = .ok r)) ∧
    (HandleCheckPaymentStatus
        (mkEnv (mkView 7 PaymentStatusPending 0) (.error "unexpected") (.error "queue down") timeMinute 0)
        exampleCfg (payloadFor 7)).result = none :=
  ⟨C3_reschedule_failure_absorbed
    (mkEnv (mkView 7 PaymentStatusPending 0) (.error "unexpected") (.error "queue down") timeMinute 0)
    exampleCfg (payloadFor 7) 7 rfl, rfl⟩

/-- C6: on a pending payment strictly older than the two-minute threshold,
with fetch and update succeeding, the handler returns nil; the resolution is
completed when the draw is below eight, failed when it equals eight and
pending when it equals nine; every update call carries a terminal status in
the completed/failed pair; and a terminal resolution schedules no follow-up. -/
theorem C6_old_pending_resolution
    (env : WorkerEnv) (cfg : Config) (payload : Json) (pid : Nat) (p : PaymentResponse)
    (hdec : decodePaymentIDPayload payload = .ok pid)
    (hget : env.getPaymentByID pid = .ok p)
    (hpend : p.Status = PaymentStatusPending)
    (hold : env.now - p.CreatedAt > 2 * timeMinute)
    (hupd : ∀ req, ∃ r, env.updatePayment pid req = .ok r) :
    simulatePaymentGatewayCheck env p =
      (if env.nano % 10 < 8 then PaymentStatusCompleted
       else if env.nano % 10 = 8 then PaymentStatusFailed
       else PaymentStatusPending) ∧
    (HandleCheckPaymentStatus env cfg payload).result = none ∧
    (∀ c ∈ (HandleCheckPaymentStatus env cfg payload).updateCalls,
      c.2.Status = PaymentStatusCompleted ∨ c.2.Status = PaymentStatusFailed) ∧
    (simulatePaymentGatewayCheck env p = PaymentStatusCompleted ∨
     simulatePaymentGatewayCheck env p = PaymentStatusFailed →
      (HandleCheckPaymentStatus env cfg payload).enqueueCalls = []) := by
  have hsim : simulatePaymentGatewayCheck env p =
      (if env.nano % 10 < 8 then PaymentStatusCompleted
       else if env.nano % 10 = 8 then PaymentStatusFailed
       else PaymentStatusPending) := by
    unfold simulatePaymentGatewayCheck
    rw [if_pos hold]
    by_cases h8 : env.nano % 10 < 8
    · simp [h8]
    · by_cases h9 : env.nano % 10 = 8
      · have : env.nano % 10 < 9 := by omega
        simp [h8, h9, this]
      · have : ¬(env.nano % 10 < 9) := by omega
        simp [h8, h9, this]
  refine ⟨hsim, ?_⟩
  unfold HandleCheckPaymentStatus
  simp only [hdec]
  simp only [hget]
  have hterm : (p.Status == PaymentStatusCompleted || p.Status == PaymentStatusFailed ||
      p.Status == PaymentStatusCanceled) = false := by
    rw [hpend]; decide
  by_cases h8 : env.nano % 10 < 8
  · have hres : simulatePaymentGatewayCheck env p = PaymentStatusCompleted := by
      rw [hsim]; simp [h8]
    obtain ⟨r, hr⟩ := hupd { Status := PaymentStatusCompleted
                             Description := "Status updated by worker at " ++ env.nowRFC }
    have hb : (PaymentStatusCompleted == PaymentStatusPending) = false := by decide
    have hne : ¬(PaymentStatusCompleted = PaymentStatusPending) := by decide
    have hp1 : ¬(PaymentStatusPending = PaymentStatusCompleted) := by decide
    have hp2 : ¬(PaymentStatusPending = PaymentStatusFailed) := by decide
    have hp3 : ¬(PaymentStatusPending = PaymentStatusCanceled) := by decide
    simp [hterm, hres, hpend, hb, hne, hp1, hp2, hp3, hr]
  · by_cases h9 : env.nano % 10 = 8
    · have hres : simulatePaymentGatewayCheck env p = PaymentStatusFailed := by
        rw [hsim]; simp [h8, h9]
      obtain ⟨r, hr⟩ := hupd { Status := PaymentStatusFailed
                               Description := "Status updated by worker at " ++ env.nowRFC }
      have hb : (PaymentStatusFailed == PaymentStatusPending) = false := by decide
      have hne : ¬(PaymentStatusFailed = PaymentStatusPending) := by decide
      have hp1 : ¬(PaymentStatusPending = PaymentStatusCompleted) := by decide
      have hp2 : ¬(PaymentStatusPending = PaymentStatusFailed) := by decide
      have hp3 : ¬(PaymentStatusPending = PaymentStatusCanceled) := by decide
      simp [hterm, hres, hpend, hb, hne, hp1, hp2, hp3, hr]
    · have hres : simulatePaymentGatewayCheck env p = PaymentStatusPending := by
        rw [hsim]; simp [h8, h9]
      have hp1 : ¬(PaymentStatusPending = PaymentStatusCompleted) := by decide
      have hp2 : ¬(PaymentStatusPending = PaymentStatusFailed) := by decide
      have hp3 : ¬(PaymentStatusPending = PaymentStatusCanceled) := by decide
      simp [hterm, hres, hpend, hp1, hp2, hp3]

/-- Witness for C6: pending payment 7 created three minutes before the
check, with the draw landing on 0, resolves to completed with no reschedule. -/
theorem C6_old_pending_resolution_witness :
    simulatePaymentGatewayCheck
        (mkEnv (mkView 7 PaymentStatusPending 0) (.ok (mkView 7 PaymentStatusCompleted 0)) (.ok "t") (3 * timeMinute) 0)
        (mkView 7 PaymentStatusPending 0) =
      (if 0 % 10 < 8 then PaymentStatusCompleted
       else if 0 % 10 = 8 then PaymentStatusFailed
       else PaymentStatusPending) ∧
    (HandleCheckPaymentStatus
        (mkEnv (mkView 7 PaymentStatusPending 0) (.ok (mkView 7 PaymentStatusCompleted 0)) (.ok "t") (3 * timeMinute) 0)
        exampleCfg (payloadFor 7)).result = none ∧
    (∀ c ∈ (HandleCheckPaymentStatus
        (mkEnv (mkView 7 PaymentStatusPending 0) (.ok (mkView 7 PaymentStatusCompleted 0)) (.ok "t") (3 * timeMinute) 0)
        exampleCfg (payloadFor 7)).updateCalls,
      c.2.Status = PaymentStatusCompleted ∨ c.2.Status = PaymentStatusFailed) ∧
    (simulatePaymentGatewayCheck
        (mkEnv (mkView 7 PaymentStatusPending 0) (.ok (mkView 7 PaymentStatusCompleted 0)) (.ok "t") (3 * timeMinute) 0)
        (mkView 7 PaymentStatusPending 0) = PaymentStatusCompleted ∨
     simulatePaymentGatewayCheck
        (mkEnv (mkView 7 PaymentStatusPending 0) (.ok (mkView 7 PaymentStatusCompleted 0)) (.ok "t") (3 * timeMinute) 0)
        (mkView 7 PaymentStatusPending 0) = PaymentStatusFailed →
      (HandleCheckPaymentStatus
        (mkEnv (mkView 7 PaymentStatusPending 0) (.ok (mkView 7 PaymentStatusCompleted 0)) (.ok "t") (3 * timeMinute) 0)
        exampleCfg (payloadFor 7)).enqueueCalls = []) :=
  C6_old_pending_resolution
    (mkEnv (mkView 7 PaymentStatusPending 0) (.ok (mkView 7 PaymentStatusCompleted 0)) (.ok "t") (3 * timeMinute) 0)
    exampleCfg (payloadFor 7) 7 (mkView 7 PaymentStatusPending 0)
    rfl rfl rfl (by decide)
    (fun req => ⟨mkView 7 PaymentStatusCompleted 0, rfl⟩)

/-- C8: when every store update fails with message `e`, the process handler
returns the wrapped error "failed to update payment: e", and the status-check
handler — whenever it must persist a changed status on a non-terminal
payment — returns the wrapped error "failed to update payment status: e";
both wrappings keep the underlying failure detail verbatim, leaving the task
eligible for redelivery. -/
theorem C8_update_failure_propagates
    (env : WorkerEnv) (cfg : Config) (payload : Json) (pid : Nat) (p : PaymentResponse) (e : String)
    (hdec : decodePaymentIDPayload payload = .ok pid)
    (hget : env.getPaymentByID pid = .ok p)
    (hupd : ∀ req, env.updatePayment pid req = .error e) :
    (HandleProcessPayment env payload).result = some ("failed to update payment: " ++ e) ∧
    (simulatePaymentGatewayCheck env p ≠ p.Status →
     ¬(p.Status = PaymentStatusCompleted ∨ p.Status = PaymentStatusFailed ∨
       p.Status = PaymentStatusCanceled) →
      (HandleCheckPaymentStatus env cfg payload).result =
        some ("failed to update payment status: " ++ e)) := by
  constructor
  · unfold HandleProcessPayment
    simp only [hdec]
    simp only [hget]
    unfold simulatePaymentProcessing
    by_cases hdraw : env.nano % 10 < 9 <;> simp [hdraw, hupd]
  · intro hchg hnterm
    have hterm : (p.Status == PaymentStatusCompleted || p.Status == PaymentStatusFailed ||
        p.Status == PaymentStatusCanceled) = false := by
      simp only [Bool.or_eq_false_iff, beq_eq_false_iff_ne]
      tauto
    unfold HandleCheckPaymentStatus
    simp only [hdec]
    simp only [hget]
    simp [hterm, hchg, hupd]

/-- Witness for C8 at the spec's scenario: payment 9, update failing with
"db unavailable"; the process handler surfaces
"failed to update payment: db unavailable", and the status-check handler on
the stale pending payment (draw 0, resolution completed) surfaces
"failed to update payment status: db unavailable". -/
theorem C8_update_failure_propagates_witness :
    (HandleProcessPayment
        (mkEnv (mkView 9 PaymentStatusPending 0) (.error "db unavailable") (.ok "t") (3 * timeMinute) 0)
        (payloadFor 9)).result = some "failed to update payment: db unavailable" ∧
    (simulatePaymentGatewayCheck
        (mkEnv (mkView 9 PaymentStatusPending 0) (.error "db unavailable") (.ok "t") (3 * timeMinute) 0)
        (mkView 9 PaymentStatusPending 0) ≠ (mkView 9 PaymentStatusPending 0).Status →
     ¬((mkView 9 PaymentStatusPending 0).Status = PaymentStatusCompleted ∨
       (mkView 9 PaymentStatusPending 0).Status = PaymentStatusFailed ∨
       (mkView 9 PaymentStatusPending 0).Status = PaymentStatusCanceled) →
      (HandleCheckPaymentStatus
          (mkEnv (mkView 9 PaymentStatusPending 0) (.error "db unavailable") (.ok "t") (3 * timeMinute) 0)
          exampleCfg (payloadFor 9)).result =
        some "failed to update payment status: db unavailable") ∧
    (HandleCheckPaymentStatus
        (mkEnv (mkView 9 PaymentStatusPending 0) (.error "db unavailable") (.ok "t") (3 * timeMinute) 0)
        exampleCfg (payloadFor 9)).result =
      some "failed to update payment status: db unavailable" :=
  ⟨(C8_update_failure_propagates
      (mkEnv (mkView 9 PaymentStatusPending 0) (.error "db unavailable") (.ok "t") (3 * timeMinute) 0)
      exampleCfg (payloadFor 9) 9 (mkView 9 PaymentStatusPending 0) "db unavailable"
      rfl rfl (fun _ => rfl)).1,
   (C8_update_failure_propagates
      (mkEnv (mkView 9 PaymentStatusPending 0) (.error "db unavailable") (.ok "t") (3 * timeMinute) 0)
      exampleCfg (payloadFor 9) 9 (mkView 9 PaymentStatusPending 0) "db unavailable"
      rfl rfl (fun _ => rfl)).2,
   (C8_update_failure_propagates
      (mkEnv (mkView 9 PaymentStatusPending 0) (.error "db unavailable") (.ok "t") (3 * timeMinute) 0)
      exampleCfg (payloadFor 9) 9 (mkView 9 PaymentStatusPending 0) "db unavailable"
      rfl rfl (fun _ => rfl)).2 (by decide) (by decide)⟩

end WalletMS
